import Mathlib

/-!
Shallow embedding of the Devfolio backend (Express + PostgreSQL) route
handlers, and proofs of the spec's claims about them.

The relational store is modelled as lists of rows; each SQL statement
becomes the corresponding pure list transformation.  Each handler is a
function from the store (plus the request data the route extracts) to the
new store and the HTTP status it responds with.

Sources embedded:
  - routes/auth.js       (register, generateToken)
  - routes/portfolios.js (PUT / : partial field update, skills replace,
                          featured-projects replace)
  - routes/users.js      (PUT /skills)
  - messages router      (POST /, PUT /:messageId/read,
                          DELETE /:messageId, GET /:userId)
The `transaction` helper (config/database.js) and the JWT verification
middleware (middleware/auth.js) are not part of the provided sources;
where needed they are modelled from the spec and marked as such.
-/

namespace Devfolio

/-- A row of the `users` table (columns used by the embedded routes). -/
structure UserRow where
id : Nat
name : String
username : String
email : String
password_hash : String
bio : String
avatar_url : String
cover_image_url : String
deriving DecidableEq, Repr

/-- A row of the `portfolios` table. -/
structure PortfolioRow where
user_id : Nat
summary : String
experience : String
education : String
deriving DecidableEq, Repr

/-- A row of the `user_skills` table. -/
structure SkillRow where
user_id : Nat
skill : String
deriving DecidableEq, Repr

/-- A row of the `projects` table (columns used by the embedded routes). -/
structure ProjectRow where
id : Nat
user_id : Nat
title : String
is_featured : Bool
deriving DecidableEq, Repr

/-- A row of the `messages` table. -/
structure MessageRow where
id : Nat
sender_id : Nat
recipient_id : Nat
message : String
is_read : Bool
deriving DecidableEq, Repr

/-- The relational store: one list of rows per table. -/
structure Store where
users : List UserRow
portfolios : List PortfolioRow
user_skills : List SkillRow
projects : List ProjectRow
messages : List MessageRow
deriving DecidableEq, Repr

/-- The empty store. -/
def Store.empty : Store :=
{ users := [], portfolios := [], user_skills := [], projects := [], messages := [] }

/-!
## POST /api/auth/register  (routes/auth.js)

The handler:
1. `SELECT id FROM users WHERE email = $1 OR username = $2`; if a row
   exists it responds 400 ("User with this email or username already
   exists") without writing.
2. Otherwise it runs a transaction inserting the user row and the paired
   portfolio row (with the default placeholder texts), and responds 201.
3. Any thrown error reaches the catch block, which responds 500
   ("Error registering user") — there is no special-casing of the
   database's unique-violation error code in this handler.

To express the pre-check/insert race the spec talks about, the handler is
given two snapshots of the store: `sCheck`, the store the SELECT of step 1
reads, and `sInsert`, the store the INSERT of step 2 runs against.  The
sequential execution is `register s s …`; a concurrent insert committing
between the two statements is `register sCheck sInsert …` with
`sCheck ≠ sInsert`.  Modelled from the spec: `transaction`
(config/database.js, not among the provided sources) rolls the whole
operation back when a statement fails, per §4.4 "any statement failure
inside a Transactional Update Operation rolls back the entire operation".
-/

/-- `SELECT id FROM users WHERE email = $1 OR username = $2` returns a row. -/
def duplicateExists (s : Store) (email username : String) : Bool :=
s.users.any (fun u => u.email = email || u.username = username)

/-- The user row the register INSERT creates (routes/auth.js lines 45-58). -/
def newUserRow (newId : Nat) (name username email passwordHash : String) : UserRow :=
{ id := newId
  name := name
  username := username
  email := email
  password_hash := passwordHash
  bio := "Developer passionate about creating amazing projects."
  avatar_url := "https://i.pravatar.cc/150?u=" ++ username
  cover_image_url := "https://images.unsplash.com/photo-1517694712202-14dd9538aa97?w=900" }

/-- The portfolio row the register transaction creates (routes/auth.js lines 63-72). -/
def newPortfolioRow (newId : Nat) : PortfolioRow :=
{ user_id := newId
  summary := "Professional developer with a passion for building great software."
  experience := ""
  education := "" }

/-- The POST /api/auth/register handler.  Returns the store after the
request together with the HTTP status sent.  `sCheck` is the store the
duplicate pre-check reads, `sInsert` the store the transaction's INSERTs
run against (equal in a race-free execution). -/
def register (sCheck sInsert : Store) (newId : Nat)
    (name username email passwordHash : String) : Store × Nat :=
if duplicateExists sCheck email username then
  (sInsert, 400)
else if duplicateExists sInsert email username then
  (sInsert, 500)
else
  ({ sInsert with
      users := sInsert.users ++ [newUserRow newId name username email passwordHash]
      portfolios := sInsert.portfolios ++ [newPortfolioRow newId] }, 201)

/-!
## Token Service

`generateToken` (routes/auth.js lines 10-16) signs `{ userId }` with the
process-wide `JWT_SECRET`, expiring after `JWT_EXPIRES_IN` (default 7
days).  Times are modelled in seconds as `Nat`.
-/

/-- Modelled from the spec: the token format and `verify` live in the
jsonwebtoken library and middleware/auth.js, which are not among the
provided sources.  Per §4.1 a token is "a signed token embedding `userId`,
an issued-at timestamp, and an expiry"; `key` records which signing key
produced the signature. -/
structure Token where
userId : Nat
iat : Nat
exp : Nat
key : String
deriving DecidableEq, Repr

/-- Result of token verification (§4.1). -/
inductive VerifyResult where
| ok (userId : Nat)
| invalidSignature
| expired
deriving DecidableEq, Repr

/-- Modelled from the spec: `jwt.sign(payload, key, { expiresIn: ttl })` —
the library itself is not among the provided sources.  Embeds the user id,
the issued-at time and the expiry `now + ttl`, signed with `key`. -/
def jwtSign (userId : Nat) (key : String) (now ttl : Nat) : Token :=
{ userId := userId, iat := now, exp := now + ttl, key := key }

/-- Seven days in seconds, the default `JWT_EXPIRES_IN` of routes/auth.js. -/
def defaultTtl : Nat := 7 * 24 * 60 * 60

/-- `generateToken` of routes/auth.js: sign `{ userId }` with the
process-wide secret, default expiry 7 days. -/
def generateToken (userId : Nat) (secret : String) (now : Nat) : Token :=
jwtSign userId secret now defaultTtl

/-- Modelled from the spec: `verify(token) -> userId | AuthError` (§4.1,
middleware/auth.js not among the provided sources).  "Fails with
`InvalidSignature` if the token was not produced by the current signing
key, `Expired` if past expiry"; signature is checked before expiry, and a
token is expired once the current time has reached `exp`. -/
def verify (t : Token) (key : String) (now : Nat) : VerifyResult :=
if t.key ≠ key then .invalidSignature
else if t.exp ≤ now then .expired
else .ok t.userId

/-!
## PUT /api/portfolios  (routes/portfolios.js lines 175-269)

The request body `{ summary?, experience?, education?, skills?,
featured_projects? }` is modelled with `Option` fields: `none` is a field
absent from the JSON body (`undefined` in the handler), `some v` a field
present with value `v`.  The handler runs one transaction:
1. builds `updates` from the fields that are `!== undefined` and, when
   nonempty, runs `UPDATE portfolios SET … WHERE user_id = $n`;
2. if `skills` is a provided array: `DELETE FROM user_skills WHERE
   user_id = $1`, then, if nonempty, bulk-INSERT the provided skills;
3. if `featured_projects` is a provided array: `UPDATE projects SET
   is_featured = false WHERE user_id = $1`, then, if nonempty,
   `UPDATE projects SET is_featured = true WHERE user_id = $1 AND id IN (…)`.
-/

/-- Body of PUT /api/portfolios. -/
structure PortfolioUpdateBody where
summary : Option String
experience : Option String
education : Option String
skills : Option (List String)
featured_projects : Option (List Nat)
deriving Repr

/-- Step 1: the dynamically assembled
`UPDATE portfolios SET <present fields> WHERE user_id = caller`
(no statement is issued when no field is present). -/
def applyFieldUpdates (s : Store) (caller : Nat) (b : PortfolioUpdateBody) : Store :=
if b.summary = none ∧ b.experience = none ∧ b.education = none then s
else
  { s with portfolios := s.portfolios.map (fun p =>
      if p.user_id = caller then
        { p with
            summary := b.summary.getD p.summary
            experience := b.experience.getD p.experience
            education := b.education.getD p.education }
      else p) }

/-- `DELETE FROM user_skills WHERE user_id = $1` followed by the bulk
INSERT of the provided skills (the INSERT is only issued when the list is
nonempty). -/
def replaceSkills (s : Store) (caller : Nat) (skills : List String) : Store :=
let deleted := s.user_skills.filter (fun r => ¬ r.user_id = caller)
{ s with user_skills :=
    if skills.length > 0 then
      deleted ++ skills.map (fun sk => { user_id := caller, skill := sk })
    else deleted }

/-- Step 2: run the skill replacement only when the body provides a skills
array. -/
def applySkillsUpdate (s : Store) (caller : Nat) (b : PortfolioUpdateBody) : Store :=
match b.skills with
| none => s
| some l => replaceSkills s caller l

/-- `UPDATE projects SET is_featured = false WHERE user_id = $1`. -/
def unfeatureAll (s : Store) (caller : Nat) : Store :=
{ s with projects := s.projects.map (fun p =>
    if p.user_id = caller then { p with is_featured := false } else p) }

/-- `UPDATE projects SET is_featured = true WHERE user_id = $1 AND id IN l`. -/
def featureListed (s : Store) (caller : Nat) (l : List Nat) : Store :=
{ s with projects := s.projects.map (fun p =>
    if p.user_id = caller ∧ p.id ∈ l then { p with is_featured := true } else p) }

/-- Step 3: run the featured-set replacement only when the body provides a
`featured_projects` array (the second UPDATE is only issued when the list
is nonempty). -/
def applyFeaturedUpdate (s : Store) (caller : Nat) (b : PortfolioUpdateBody) : Store :=
match b.featured_projects with
| none => s
| some l =>
    let cleared := unfeatureAll s caller
    if l.length > 0 then featureListed cleared caller l else cleared

/-- The PUT /api/portfolios handler: the three transactional steps in the
order the source issues them, then a 200 response. -/
def updatePortfolio (s : Store) (caller : Nat) (b : PortfolioUpdateBody) : Store × Nat :=
(applyFeaturedUpdate (applySkillsUpdate (applyFieldUpdates s caller b) caller b) caller b, 200)

/-!
## PUT /api/users/skills  (routes/users.js lines 182-223)

The handler rejects a body whose `skills` is not an array with 400, and
otherwise replaces the caller's skill rows inside a transaction: `none`
models an absent (or non-array) `skills` field.
-/

/-- The PUT /api/users/skills handler. -/
def updateSkills (s : Store) (caller : Nat) (skills : Option (List String)) : Store × Nat :=
match skills with
| none => (s, 400)
| some l => (replaceSkills s caller l, 200)

/-!
## Messages router

* POST /api/messages — checks the recipient row exists (404 if not), then
  rejects `recipient_id === req.user.id` with 400, then INSERTs the
  message row with `is_read` defaulted to false, 201.
* PUT /api/messages/:messageId/read — `UPDATE messages SET is_read = true
  WHERE id = $1 AND recipient_id = $2 RETURNING id, is_read`; 404 when no
  row matched, 200 otherwise.
* DELETE /api/messages/:messageId — `DELETE FROM messages WHERE id = $1
  AND sender_id = $2 RETURNING id`; 404 when no row matched, 200 otherwise.
* GET /api/messages/:userId — checks the other user exists (404 if not),
  reads the thread, then `UPDATE messages SET is_read = true WHERE
  recipient_id = $1 AND sender_id = $2 AND is_read = false`, 200.
-/

/-- The POST /api/messages handler. -/
def sendMessage (s : Store) (caller recipient_id : Nat) (msg : String) (newId : Nat) :
    Store × Nat :=
if ¬ s.users.any (fun u => u.id = recipient_id) then
  (s, 404)
else if recipient_id = caller then
  (s, 400)
else
  ({ s with messages := s.messages ++
      [{ id := newId, sender_id := caller, recipient_id := recipient_id,
         message := msg, is_read := false }] }, 201)

/-- Row effect of `UPDATE messages SET is_read = true WHERE id = $1 AND
recipient_id = $2` on one row. -/
def readIfMatch (messageId caller : Nat) (m : MessageRow) : MessageRow :=
if m.id = messageId ∧ m.recipient_id = caller then { m with is_read := true } else m

/-- The PUT /api/messages/:messageId/read handler body (the route
additionally attaches the `uuidParam` validation — see `markReadRoute`). -/
def markRead (s : Store) (caller messageId : Nat) : Store × Nat :=
if s.messages.any (fun m => m.id = messageId && m.recipient_id = caller) then
  ({ s with messages := s.messages.map (readIfMatch messageId caller) }, 200)
else
  (s, 404)

/-- The DELETE /api/messages/:messageId handler body (the route
additionally attaches the `uuidParam` validation — see
`deleteMessageRoute`). -/
def deleteMessage (s : Store) (caller messageId : Nat) : Store × Nat :=
if s.messages.any (fun m => m.id = messageId && m.sender_id = caller) then
  ({ s with messages := s.messages.filter (fun m =>
      ¬ (m.id = messageId ∧ m.sender_id = caller)) }, 200)
else
  (s, 404)

/-- Row effect of `UPDATE messages SET is_read = true WHERE recipient_id
= $1 AND sender_id = $2 AND is_read = false` on one row. -/
def threadRead (caller userId : Nat) (m : MessageRow) : MessageRow :=
if m.recipient_id = caller ∧ m.sender_id = userId ∧ m.is_read = false then
  { m with is_read := true }
else m

/-- The GET /api/messages/:userId handler body (the route additionally
attaches the `uuidParam` validation — see `getThreadRoute`).  The
response body is the thread read before the update; only the store effect
and status are modelled. -/
def getThread (s : Store) (caller userId : Nat) : Store × Nat :=
if ¬ s.users.any (fun u => u.id = userId) then
  (s, 404)
else
  ({ s with messages := s.messages.map (threadRead caller userId) }, 200)

/-!
## The `uuidParam` validation middleware and the message routes

The three id-parameterised message routes attach
`validations.uuidParam` (validation middleware, lines 151-155), a chain
validating the request parameter NAMED "id" with `isUUID`; the `validate`
step (lines 4-14) answers 400 "Validation failed" when the chain reports
an error.  Express captures a path segment under the name the route
declares — ":messageId" for PUT /:messageId/read and DELETE /:messageId,
":userId" for GET /:userId — so `req.params` holds no entry named "id"
on these routes, and a field absent from the request fails a
non-optional validator chain.  `req.params` is modelled as an
association list from parameter name to the captured text; the store
keys abstract UUID strings as `Nat`, so each route takes both the
captured text `raw` and the store key it denotes.
-/

/-- Hexadecimal digit, as in the UUID pattern of the validator library. -/
def hexDigit (c : Char) : Bool :=
c.isDigit || ("a" ≤ c.toString && c.toString ≤ "f") || ("A" ≤ c.toString && c.toString ≤ "F")

/-- The UUID shape `isUUID` accepts: 36 characters, dashes at positions
8, 13, 18 and 23, hexadecimal digits elsewhere. -/
def isUuidString (v : String) : Bool :=
let cs := v.toList
cs.length = 36 && (List.range 36).all (fun i =>
  if i = 8 || i = 13 || i = 18 || i = 23 then cs.getD i ' ' = '-'
  else hexDigit (cs.getD i ' '))

/-- The `uuidParam` chain followed by `validate`: passes exactly when the
request has a parameter named "id" whose value is UUID-shaped (an absent
field fails the chain). -/
def uuidParamPasses (params : List (String × String)) : Bool :=
match params.lookup "id" with
| some v => isUuidString v
| none => false

/-- DELETE /api/messages/:messageId as routed: `uuidParam` validation,
then the handler body.  Express captures the path segment as "messageId". -/
def deleteMessageRoute (s : Store) (caller : Nat) (raw : String) (messageId : Nat) :
    Store × Nat :=
if uuidParamPasses [("messageId", raw)] then deleteMessage s caller messageId
else (s, 400)

/-- PUT /api/messages/:messageId/read as routed: `uuidParam` validation,
then the handler body.  Express captures the path segment as "messageId". -/
def markReadRoute (s : Store) (caller : Nat) (raw : String) (messageId : Nat) :
    Store × Nat :=
if uuidParamPasses [("messageId", raw)] then markRead s caller messageId
else (s, 400)

/-- GET /api/messages/:userId as routed: `uuidParam` validation, then the
handler body.  Express captures the path segment as "userId". -/
def getThreadRoute (s : Store) (caller : Nat) (raw : String) (userId : Nat) :
    Store × Nat :=
if uuidParamPasses [("userId", raw)] then getThread s caller userId
else (s, 400)

/-!
## Frame lemmas

Each transactional step of PUT /api/portfolios touches exactly one table;
these lemmas record the tables it leaves alone.
-/

theorem applyFieldUpdates_user_skills (s : Store) (c : Nat) (b : PortfolioUpdateBody) :
    (applyFieldUpdates s c b).user_skills = s.user_skills := by
  unfold applyFieldUpdates; split <;> rfl

theorem applyFieldUpdates_projects (s : Store) (c : Nat) (b : PortfolioUpdateBody) :
    (applyFieldUpdates s c b).projects = s.projects := by
  unfold applyFieldUpdates; split <;> rfl

theorem applySkillsUpdate_portfolios (s : Store) (c : Nat) (b : PortfolioUpdateBody) :
    (applySkillsUpdate s c b).portfolios = s.portfolios := by
  unfold applySkillsUpdate; cases b.skills <;> rfl

theorem applySkillsUpdate_projects (s : Store) (c : Nat) (b : PortfolioUpdateBody) :
    (applySkillsUpdate s c b).projects = s.projects := by
  unfold applySkillsUpdate; cases b.skills <;> rfl

theorem applyFeaturedUpdate_portfolios (s : Store) (c : Nat) (b : PortfolioUpdateBody) :
    (applyFeaturedUpdate s c b).portfolios = s.portfolios := by
  unfold applyFeaturedUpdate; cases b.featured_projects with
  | none => rfl
  | some l =>
      simp only
      split <;> rfl

theorem applyFeaturedUpdate_user_skills (s : Store) (c : Nat) (b : PortfolioUpdateBody) :
    (applyFeaturedUpdate s c b).user_skills = s.user_skills := by
  unfold applyFeaturedUpdate; cases b.featured_projects with
  | none => rfl
  | some l =>
      simp only
      split <;> rfl

/-!
## Claims about registration (C1, C2)
-/

/-- A store holding one already-registered user with email "a@b" — the
store a concurrent registration committed into between the duplicate
pre-check and the INSERT of a second registration for the same email. -/
def racedStore : Store :=
{ Store.empty with users := [newUserRow 1 "Bob" "bob" "a@b" "h0"] }

/-- Claim C1: a duplicate caught by the pre-check is answered 400
(DuplicateUser), but a duplicate that only the database's uniqueness
conflict detects (a concurrent insert after the pre-check) reaches the
catch block of routes/auth.js lines 88-95, which answers 500 — not the
DuplicateUser 400 the claim requires.  Failing input: pre-check snapshot
empty, insert snapshot already holding a user with email "a@b". -/
theorem register_db_conflict_is_500 :
    (register racedStore racedStore 2 "Ann" "ann" "a@b" "h1").2 = 400 ∧
    (register Store.empty racedStore 2 "Ann" "ann" "a@b" "h1").2 = 500 ∧
    (register Store.empty racedStore 2 "Ann" "ann" "a@b" "h1").2 ≠ 400 := by
  refine ⟨?_, ?_, ?_⟩ <;> decide

/-- Claim C2: sequential registration is atomic — either it answers 201
and the store gains exactly the new user row and its paired portfolio row,
or the store is unchanged and it answers 400; and whenever some existing
user already holds the requested email (any username), it answers 400
(DuplicateUser) and writes nothing. -/
theorem register_atomic (s : Store) (newId : Nat) (name username email hash : String) :
    (((register s s newId name username email hash).2 = 201 ∧
      (register s s newId name username email hash).1 =
        { s with
            users := s.users ++ [newUserRow newId name username email hash]
            portfolios := s.portfolios ++ [newPortfolioRow newId] }) ∨
     ((register s s newId name username email hash).1 = s ∧
      (register s s newId name username email hash).2 = 400)) ∧
    ((∃ u ∈ s.users, u.email = email) →
      (register s s newId name username email hash).2 = 400 ∧
      (register s s newId name username email hash).1 = s) := by
  constructor
  · by_cases hd : duplicateExists s email username
    · right
      simp [register, hd]
    · left
      simp [register, hd]
  · rintro ⟨u, hu, hmail⟩
    have hd : duplicateExists s email username = true := by
      simp only [duplicateExists, List.any_eq_true]
      exact ⟨u, hu, by simp [hmail]⟩
    simp [register, hd]

/-- Concrete instance for C2: registering "ann" with the email "a@b"
already held by "bob" answers 400 and leaves the store unchanged. -/
theorem register_atomic_witness :
    (register racedStore racedStore 2 "Ann" "ann" "a@b" "h1").2 = 400 ∧
    (register racedStore racedStore 2 "Ann" "ann" "a@b" "h1").1 = racedStore :=
  (register_atomic racedStore 2 "Ann" "ann" "a@b" "h1").2
    ⟨newUserRow 1 "Bob" "bob" "a@b" "h0", by simp [racedStore, Store.empty], rfl⟩

/-!
## Claim about the Token Service (C3)
-/

/-- Claim C3: for any user id, verifying a token issued to that user with
the signing key it was issued under yields the user id at any time strictly
before the expiry; yields `expired` at any time from the expiry on; and a
token signed with a different key is rejected as `invalidSignature`
(whatever the time); `generateToken` of routes/auth.js is exactly issuance
with the default 7-day TTL. -/
theorem verify_issue_roundtrip (u : Nat) (key otherKey : String) (now ttl t1 t2 t3 : Nat)
    (h1 : t1 < now + ttl) (h2 : now + ttl ≤ t2) (h3 : otherKey ≠ key) :
    verify (jwtSign u key now ttl) key t1 = .ok u ∧
    verify (jwtSign u key now ttl) key t2 = .expired ∧
    verify (jwtSign u otherKey now ttl) key t3 = .invalidSignature ∧
    generateToken u key now = jwtSign u key now defaultTtl := by
  refine ⟨?_, ?_, ?_, rfl⟩
  · simp only [verify, jwtSign, ne_eq, not_true_eq_false, if_false]
    rw [if_neg (by omega)]
  · simp [verify, jwtSign, h2]
  · simp [verify, jwtSign, h3]

/-- Concrete instance for C3: a token issued to user 7 at time 0 with TTL
5 under key "k" verifies to 7 at time 4, is expired at time 5, and a token
signed with "j" is rejected under key "k". -/
theorem verify_issue_roundtrip_witness :
    verify (jwtSign 7 "k" 0 5) "k" 4 = .ok 7 ∧
    verify (jwtSign 7 "k" 0 5) "k" 5 = .expired ∧
    verify (jwtSign 7 "j" 0 5) "k" 0 = .invalidSignature :=
  have h := verify_issue_roundtrip 7 "k" "j" 0 5 4 5 0 (by decide) (by decide) (by decide)
  ⟨h.1, h.2.1, h.2.2.1⟩

/-!
## Claims about skill replacement (C4)
-/

/-- Claim C4: in both skill-updating handlers a provided empty skills
array clears the caller's skill rows (exactly the other users' rows
remain), while an absent skills field leaves the skill table untouched
(PUT /api/users/skills then answers 400); and when the caller has at
least one skill row the two requests leave different skill tables. -/
theorem skills_empty_vs_absent (s : Store) (caller : Nat) (b bNone : PortfolioUpdateBody)
    (hb : b.skills = some []) (hn : bNone.skills = none) :
    (updatePortfolio s caller b).1.user_skills
        = s.user_skills.filter (fun r => ¬ r.user_id = caller) ∧
    (updatePortfolio s caller bNone).1.user_skills = s.user_skills ∧
    ((∃ r ∈ s.user_skills, r.user_id = caller) →
      (updatePortfolio s caller b).1.user_skills
        ≠ (updatePortfolio s caller bNone).1.user_skills) ∧
    (updateSkills s caller (some [])).1.user_skills
        = s.user_skills.filter (fun r => ¬ r.user_id = caller) ∧
    (updateSkills s caller none) = (s, 400) := by
  have hfb : (applyFieldUpdates s caller b).user_skills = s.user_skills :=
    applyFieldUpdates_user_skills s caller b
  have hempty : (updatePortfolio s caller b).1.user_skills
      = s.user_skills.filter (fun r => ¬ r.user_id = caller) := by
    simp only [updatePortfolio, applyFeaturedUpdate_user_skills]
    simp [applySkillsUpdate, hb, replaceSkills, hfb,
      applyFieldUpdates_user_skills]
  have habsent : (updatePortfolio s caller bNone).1.user_skills = s.user_skills := by
    simp only [updatePortfolio, applyFeaturedUpdate_user_skills]
    simp [applySkillsUpdate, hn, applyFieldUpdates_user_skills]
  refine ⟨hempty, habsent, ?_, by simp [updateSkills, replaceSkills], rfl⟩
  rintro ⟨r, hr, hrc⟩ heq
  rw [hempty, habsent] at heq
  have : r ∈ s.user_skills.filter (fun r => ¬ r.user_id = caller) := by
    rw [heq]; exact hr
  rw [List.mem_filter] at this
  simp [hrc] at this

/-- A store holding one skill row for user 1, to instantiate C4. -/
def skillStore : Store :=
{ Store.empty with user_skills := [{ user_id := 1, skill := "lean" }] }

/-- The PUT /api/portfolios body `\x7b skills: [] \x7d`. -/
def bodySkillsEmpty : PortfolioUpdateBody :=
{ summary := none, experience := none, education := none,
  skills := some [], featured_projects := none }

/-- The PUT /api/portfolios body with no skills field. -/
def bodySkillsAbsent : PortfolioUpdateBody :=
{ summary := none, experience := none, education := none,
  skills := none, featured_projects := none }

/-- Concrete instance for C4: for user 1 holding one skill row, the
empty-array request clears the row, the absent-field request keeps it, and
the two outcomes differ. -/
theorem skills_empty_vs_absent_witness :
    (updatePortfolio skillStore 1 bodySkillsEmpty).1.user_skills = [] ∧
    (updatePortfolio skillStore 1 bodySkillsAbsent).1.user_skills
      = [{ user_id := 1, skill := "lean" }] ∧
    (updatePortfolio skillStore 1 bodySkillsEmpty).1.user_skills
      ≠ (updatePortfolio skillStore 1 bodySkillsAbsent).1.user_skills :=
  have h := skills_empty_vs_absent skillStore 1 bodySkillsEmpty bodySkillsAbsent rfl rfl
  ⟨by rw [h.1]; rfl, by rw [h.2.1]; rfl,
   h.2.2.1 ⟨{ user_id := 1, skill := "lean" }, by simp [skillStore, Store.empty], rfl⟩⟩

/-!
## Claim about the featured-project replace-set (C5)
-/

/-- Clearing every flag of the caller and then raising the flags listed in
`L` (restricted to the caller's rows) is, row for row, "the caller's row
is featured exactly when its id is in `L`; any other row is untouched". -/
theorem unfeature_then_feature (l : List ProjectRow) (caller : Nat) (L : List Nat) :
    (l.map (fun p => if p.user_id = caller then { p with is_featured := false } else p)).map
        (fun p => if p.user_id = caller ∧ p.id ∈ L then { p with is_featured := true } else p)
      = l.map (fun p =>
          if p.user_id = caller then { p with is_featured := decide (p.id ∈ L) } else p) := by
  rw [List.map_map]
  apply List.map_congr_left
  intro p _
  cases p with
  | mk id user_id title feat =>
      by_cases hc : user_id = caller
      · by_cases hm : id ∈ L <;> simp [Function.comp, hc, hm]
      · simp [Function.comp, hc]

/-- Claim C5: a portfolio update supplying a featured_projects list `L`
succeeds (200) and rewrites the projects table so that a caller-owned row
is featured exactly when its id is in `L`, every other user's row being
left as it was; in particular ids in `L` owned by others are ignored
without error. -/
theorem featured_replace (s : Store) (caller : Nat) (b : PortfolioUpdateBody) (L : List Nat)
    (hf : b.featured_projects = some L) :
    (updatePortfolio s caller b).2 = 200 ∧
    (updatePortfolio s caller b).1.projects = s.projects.map (fun p =>
      if p.user_id = caller then { p with is_featured := decide (p.id ∈ L) } else p) ∧
    (∀ p ∈ (updatePortfolio s caller b).1.projects,
      p.user_id = caller → (p.is_featured = true ↔ p.id ∈ L)) := by
  have hproj : (updatePortfolio s caller b).1.projects = s.projects.map (fun p =>
      if p.user_id = caller then { p with is_featured := decide (p.id ∈ L) } else p) := by
    show (applyFeaturedUpdate _ caller b).projects = _
    rw [applyFeaturedUpdate, hf]
    simp only
    by_cases hl : L.length > 0
    · rw [if_pos hl]
      simp only [featureListed, unfeatureAll]
      rw [applySkillsUpdate_projects, applyFieldUpdates_projects]
      exact unfeature_then_feature s.projects caller L
    · rw [if_neg hl]
      have hL : L = [] := by
        cases L with
        | nil => rfl
        | cons a t => simp at hl
      subst hL
      simp only [unfeatureAll]
      rw [applySkillsUpdate_projects, applyFieldUpdates_projects]
      apply List.map_congr_left
      intro p _
      cases p with
      | mk id user_id title feat =>
          by_cases hc : user_id = caller <;> simp [hc]
  refine ⟨rfl, hproj, ?_⟩
  intro p hp hpc
  rw [hproj] at hp
  rcases List.mem_map.mp hp with ⟨q, hq, hqe⟩
  cases q with
  | mk id user_id title feat =>
      by_cases hc : user_id = caller
      · rw [if_pos hc] at hqe
        cases hqe
        simp
      · rw [if_neg hc] at hqe
        cases hqe
        exact absurd hpc hc

/-- A store for the C5 instance: user 1 owns projects 5 and 6 (6
currently featured), user 2 owns project 7 (featured). -/
def projStore : Store :=
{ Store.empty with projects :=
    [{ id := 5, user_id := 1, title := "a", is_featured := false },
     { id := 6, user_id := 1, title := "b", is_featured := true },
     { id := 7, user_id := 2, title := "c", is_featured := true }] }

/-- The PUT /api/portfolios body `\x7b featured_projects: [5, 7] \x7d`. -/
def bodyFeatured : PortfolioUpdateBody :=
{ summary := none, experience := none, education := none,
  skills := none, featured_projects := some [5, 7] }

/-- Concrete instance for C5: user 1 supplies [5, 7]; afterwards their
project 5 is featured, their project 6 no longer is, and user 2's project
7 — though listed — keeps its flag untouched. -/
theorem featured_replace_witness :
    (updatePortfolio projStore 1 bodyFeatured).2 = 200 ∧
    (updatePortfolio projStore 1 bodyFeatured).1.projects =
      [{ id := 5, user_id := 1, title := "a", is_featured := true },
       { id := 6, user_id := 1, title := "b", is_featured := false },
       { id := 7, user_id := 2, title := "c", is_featured := true }] :=
  have h := featured_replace projStore 1 bodyFeatured [5, 7] rfl
  ⟨h.1, by rw [h.2.1]; rfl⟩

/-!
## Claim about the partial portfolio field update (C6)
-/

/-- Claim C6: the portfolio field update writes exactly the fields present
in the body — a present field (the empty string included) is written, an
absent one keeps its stored value — on every portfolio row of the caller,
other rows untouched; in particular summary present as "" ends up stored
as "", and summary absent leaves every stored summary unchanged. -/
theorem field_presence_update (s : Store) (caller : Nat) (b : PortfolioUpdateBody) :
    (updatePortfolio s caller b).1.portfolios = s.portfolios.map (fun p =>
      if p.user_id = caller then
        { p with
            summary := b.summary.getD p.summary
            experience := b.experience.getD p.experience
            education := b.education.getD p.education }
      else p) ∧
    (b.summary = some "" → ∀ p ∈ (updatePortfolio s caller b).1.portfolios,
      p.user_id = caller → p.summary = "") ∧
    (b.summary = none →
      (updatePortfolio s caller b).1.portfolios.map PortfolioRow.summary
        = s.portfolios.map PortfolioRow.summary) := by
  have hmain : (updatePortfolio s caller b).1.portfolios = s.portfolios.map (fun p =>
      if p.user_id = caller then
        { p with
            summary := b.summary.getD p.summary
            experience := b.experience.getD p.experience
            education := b.education.getD p.education }
      else p) := by
    show (applyFeaturedUpdate _ caller b).portfolios = _
    rw [applyFeaturedUpdate_portfolios, applySkillsUpdate_portfolios, applyFieldUpdates]
    split
    · next hnone =>
        obtain ⟨h1, h2, h3⟩ := hnone
        rw [h1, h2, h3]
        symm
        have hid : ∀ p ∈ s.portfolios,
            (if p.user_id = caller then
              { p with
                  summary := (none : Option String).getD p.summary
                  experience := (none : Option String).getD p.experience
                  education := (none : Option String).getD p.education }
            else p) = p := by
          intro p _
          cases p with
          | mk uid su ex ed => by_cases hc : uid = caller <;> simp [hc]
        exact (List.map_congr_left hid).trans (List.map_id' s.portfolios)
    · rfl
  refine ⟨hmain, ?_, ?_⟩
  · intro hs p hp hpc
    rw [hmain] at hp
    rcases List.mem_map.mp hp with ⟨q, hq, hqe⟩
    cases q with
    | mk uid su ex ed =>
        by_cases hc : uid = caller
        · rw [if_pos hc] at hqe
          cases hqe
          simp [hs]
        · rw [if_neg hc] at hqe
          cases hqe
          exact absurd hpc hc
  · intro hs
    rw [hmain, List.map_map]
    apply List.map_congr_left
    intro p _
    cases p with
    | mk uid su ex ed => by_cases hc : uid = caller <;> simp [Function.comp, hc, hs]

/-- A store for the C6 instances: portfolio rows for users 1 and 2. -/
def pfStore : Store :=
{ Store.empty with portfolios :=
    [{ user_id := 1, summary := "old", experience := "e1", education := "d1" },
     { user_id := 2, summary := "keep", experience := "e2", education := "d2" }] }

/-- The PUT /api/portfolios body `\x7b summary: "", experience: "new" \x7d`
(education and the two arrays absent). -/
def bodyFields : PortfolioUpdateBody :=
{ summary := some "", experience := some "new", education := none,
  skills := none, featured_projects := none }

/-- Concrete instance for C6: user 1 sends summary "" and experience
"new" with education absent — the summary is overwritten by the empty
string, the experience replaced, the education kept, and user 2's row is
untouched. -/
theorem field_presence_update_witness :
    (updatePortfolio pfStore 1 bodyFields).1.portfolios =
      [{ user_id := 1, summary := "", experience := "new", education := "d1" },
       { user_id := 2, summary := "keep", experience := "e2", education := "d2" }] ∧
    bodyFields.summary = some "" :=
  ⟨by rw [(field_presence_update pfStore 1 bodyFields).1]; rfl, rfl⟩

/-!
## Claims about the messages router (C7-C10)
-/

/-- Counterexample to C7 as stated: when the authenticated caller's own
user row is gone from the store (the spec's §4.2 middleware does not
re-verify existence, so a token can outlive its account), a self-addressed
message hits the recipient-existence check first — the handler answers
404, not the claimed 400.  The store is empty, the caller's id is 0 and
the message is addressed to 0. -/
theorem sendMessage_self_deleted_caller :
    (sendMessage Store.empty 0 0 "hi" 1).2 = 404 ∧
    ¬ (sendMessage Store.empty 0 0 "hi" 1).2 = 400 := by
  exact ⟨rfl, by decide⟩

/-- Claim C7 (amended): a self-addressed send never inserts a row and
always fails — with 400 whenever the caller's own user row is still
present, and with 404 (recipient not found) in the corner case where the
caller's row has been deleted while the token stayed valid. -/
theorem sendMessage_self_rejected (s : Store) (caller : Nat) (msg : String) (newId : Nat) :
    (sendMessage s caller caller msg newId).1 = s ∧
    ((sendMessage s caller caller msg newId).2 = 400 ∨
     (sendMessage s caller caller msg newId).2 = 404) ∧
    (s.users.any (fun u => u.id = caller) = true →
      (sendMessage s caller caller msg newId).2 = 400) := by
  by_cases h : s.users.any (fun u => u.id = caller) = true
  · refine ⟨?_, Or.inl ?_, fun _ => ?_⟩ <;> simp [sendMessage, h]
  · refine ⟨?_, Or.inr ?_, fun hc => absurd hc h⟩ <;> simp [sendMessage, h]

/-- A store with users 1 and 2 and one message (id 9) sent by 2 to 1,
already read. -/
def msgStore : Store :=
{ Store.empty with
    users := [newUserRow 1 "Ann" "ann" "a@b" "h1", newUserRow 2 "Bob" "bob" "b@b" "h2"]
    messages := [{ id := 9, sender_id := 2, recipient_id := 1, message := "hi",
                   is_read := true }] }

/-- Concrete instance for C7 (amended): user 1, whose row exists in
`msgStore`, messaging themself is answered 400 and the store is unchanged. -/
theorem sendMessage_self_rejected_witness :
    (sendMessage msgStore 1 1 "hey" 10).1 = msgStore ∧
    (sendMessage msgStore 1 1 "hey" 10).2 = 400 :=
  have h := sendMessage_self_rejected msgStore 1 "hey" 10
  ⟨h.1, h.2.2 (by decide)⟩

/-- Handler-body fact: deleting a message the caller did not send —
including a message id that matches no row at all — answers 404 (so never
403) and leaves the store unchanged.  Unreachable through the route as
wired: see `deleteMessage_route_always_400`. -/
theorem deleteMessage_not_sender (s : Store) (caller messageId : Nat)
    (h : ∀ m ∈ s.messages, ¬ (m.id = messageId ∧ m.sender_id = caller)) :
    deleteMessage s caller messageId = (s, 404) := by
  have hany : s.messages.any (fun m => m.id = messageId && m.sender_id = caller) = false := by
    rw [List.any_eq_false]
    intro m hm
    simpa using h m hm
  simp [deleteMessage, hany]

/-- Concrete handler-body instance: user 1 deleting message 9 (sent by
user 2) gets 404 with the store unchanged, and so does deleting the
absent id 77. -/
theorem deleteMessage_not_sender_witness :
    deleteMessage msgStore 1 9 = (msgStore, 404) ∧
    deleteMessage msgStore 1 77 = (msgStore, 404) :=
  ⟨deleteMessage_not_sender msgStore 1 9 (by decide),
   deleteMessage_not_sender msgStore 1 77 (by decide)⟩

/-- Applying the mark-read row effect twice is the same as applying it
once. -/
theorem readIfMatch_idem (messageId caller : Nat) (m : MessageRow) :
    readIfMatch messageId caller (readIfMatch messageId caller m)
      = readIfMatch messageId caller m := by
  cases m with
  | mk id sid rid msg ir =>
      by_cases hc : id = messageId ∧ rid = caller
      · simp [readIfMatch, hc]
      · simp [readIfMatch, hc]

/-- The mark-read row effect changes neither the id nor the recipient of
a row. -/
theorem readIfMatch_keys (messageId caller : Nat) (m : MessageRow) :
    (readIfMatch messageId caller m).id = m.id ∧
    (readIfMatch messageId caller m).recipient_id = m.recipient_id := by
  cases m with
  | mk id sid rid msg ir =>
      unfold readIfMatch
      split <;> simp

/-- Handler-body fact: marking as read a message already read whose
recipient is the caller answers 200 with the store left identical; and for
every store, caller and message id, running the mark-read body twice
leaves the same store as running it once.  Unreachable through the route
as wired: see `markRead_route_always_400`. -/
theorem markRead_idempotent (s : Store) (caller messageId : Nat)
    (hmem : ∃ m ∈ s.messages, m.id = messageId ∧ m.recipient_id = caller)
    (hread : ∀ m ∈ s.messages, m.id = messageId → m.recipient_id = caller →
      m.is_read = true) :
    markRead s caller messageId = (s, 200) ∧
    ∀ s' c mid, (markRead (markRead s' c mid).1 c mid).1 = (markRead s' c mid).1 := by
  constructor
  · obtain ⟨m, hm, hc⟩ := hmem
    have hany : s.messages.any (fun m => m.id = messageId && m.recipient_id = caller)
        = true :=
      List.any_eq_true.mpr ⟨m, hm, by simp [hc.1, hc.2]⟩
    have hid : ∀ m ∈ s.messages, readIfMatch messageId caller m = m := by
      intro m hm
      cases m with
      | mk id sid rid msg ir =>
          by_cases hmc : id = messageId ∧ rid = caller
          · have hr := hread _ hm hmc.1 hmc.2
            simp only at hr
            simp [readIfMatch, hmc, hr]
          · simp [readIfMatch, hmc]
    have hmap : s.messages.map (readIfMatch messageId caller) = s.messages :=
      (List.map_congr_left hid).trans (List.map_id' s.messages)
    simp [markRead, hany, hmap]
  · intro s' c mid
    by_cases h1 : s'.messages.any (fun m => m.id = mid && m.recipient_id = c) = true
    · have h2 : (s'.messages.map (readIfMatch mid c)).any
          (fun m => m.id = mid && m.recipient_id = c) = true := by
        obtain ⟨m, hm, hpm⟩ := List.any_eq_true.mp h1
        refine List.any_eq_true.mpr ⟨readIfMatch mid c m, List.mem_map_of_mem _ hm, ?_⟩
        rw [(readIfMatch_keys mid c m).1, (readIfMatch_keys mid c m).2]
        exact hpm
      have h3 : (s'.messages.map (readIfMatch mid c)).map (readIfMatch mid c)
          = s'.messages.map (readIfMatch mid c) := by
        rw [List.map_map]
        apply List.map_congr_left
        intro m _
        exact readIfMatch_idem mid c m
      simp [markRead, h1, h2, h3]
    · simp [markRead, h1]

/-- Concrete handler-body instance: message 9 of `msgStore` is already
read by its recipient 1, and the mark-read body answers 200 leaving the
store identical. -/
theorem markRead_idempotent_witness :
    markRead msgStore 1 9 = (msgStore, 200) :=
  (markRead_idempotent msgStore 1 9
    ⟨{ id := 9, sender_id := 2, recipient_id := 1, message := "hi", is_read := true },
     by simp [msgStore, Store.empty], rfl, rfl⟩
    (by decide)).1

/-- Handler-body fact: the thread handler body, given an existing user,
answers 200 and rewrites only the messages table: each message addressed
to the caller by that user that was unread becomes read (afterwards every
message from that user to the caller is read), and every message not
addressed to the caller by that user — the opposite direction, or other
users' traffic — is kept as it was.  Unreachable through the route as
wired: see `getThread_route_always_400`. -/
theorem getThread_marks_read (s : Store) (caller userId : Nat)
    (h : s.users.any (fun u => u.id = userId) = true) :
    (getThread s caller userId).2 = 200 ∧
    (getThread s caller userId).1.users = s.users ∧
    (getThread s caller userId).1.portfolios = s.portfolios ∧
    (getThread s caller userId).1.user_skills = s.user_skills ∧
    (getThread s caller userId).1.projects = s.projects ∧
    (getThread s caller userId).1.messages = s.messages.map (threadRead caller userId) ∧
    (∀ m ∈ (getThread s caller userId).1.messages,
      m.sender_id = userId → m.recipient_id = caller → m.is_read = true) ∧
    (∀ m ∈ s.messages, ¬ (m.recipient_id = caller ∧ m.sender_id = userId) →
      m ∈ (getThread s caller userId).1.messages) := by
  have hmsg : (getThread s caller userId).1.messages
      = s.messages.map (threadRead caller userId) := by
    simp [getThread, h]
  refine ⟨by simp [getThread, h], by simp [getThread, h], by simp [getThread, h],
    by simp [getThread, h], by simp [getThread, h], hmsg, ?_, ?_⟩
  · intro m hm hms hmr
    rw [hmsg] at hm
    rcases List.mem_map.mp hm with ⟨q, hq, hqe⟩
    cases q with
    | mk id sid rid msg ir =>
        by_cases hc : rid = caller ∧ sid = userId ∧ ir = false
        · rw [threadRead, if_pos hc] at hqe
          cases hqe
          rfl
        · rw [threadRead, if_neg hc] at hqe
          cases hqe
          simp only at hms hmr ⊢
          subst hms hmr
          cases ir with
          | true => rfl
          | false => exact absurd ⟨rfl, rfl, rfl⟩ hc
  · intro m hm hnot
    rw [hmsg]
    have : threadRead caller userId m = m := by
      rw [threadRead, if_neg]
      intro hc
      exact hnot ⟨hc.1, hc.2.1⟩
    rw [← this]
    exact List.mem_map_of_mem _ hm

/-- A store for the C10 instance: users 1, 2 and 3; an unread message
from 2 to 1, an unread message from 1 to 2, and an unread message from 2
to 3. -/
def threadStore : Store :=
{ Store.empty with
    users := [newUserRow 1 "Ann" "ann" "a@b" "h1", newUserRow 2 "Bob" "bob" "b@b" "h2",
              newUserRow 3 "Cyd" "cyd" "c@b" "h3"]
    messages :=
      [{ id := 1, sender_id := 2, recipient_id := 1, message := "to ann", is_read := false },
       { id := 2, sender_id := 1, recipient_id := 2, message := "to bob", is_read := false },
       { id := 3, sender_id := 2, recipient_id := 3, message := "to cyd", is_read := false }] }

/-- Concrete handler-body instance: user 1 running the thread body with
user 2 marks only the message from 2 to 1 read; the message from 1 to 2
and the one from 2 to 3 stay unread. -/
theorem getThread_marks_read_witness :
    (getThread threadStore 1 2).2 = 200 ∧
    (getThread threadStore 1 2).1.messages =
      [{ id := 1, sender_id := 2, recipient_id := 1, message := "to ann", is_read := true },
       { id := 2, sender_id := 1, recipient_id := 2, message := "to bob", is_read := false },
       { id := 3, sender_id := 2, recipient_id := 3, message := "to cyd", is_read := false }] :=
  have h := getThread_marks_read threadStore 1 2 (by decide)
  ⟨h.1, by rw [h.2.2.2.2.2.1]; rfl⟩

/-!
## The routed message endpoints never reach their handlers (C8-C10)

`uuidParam` validates the request parameter named "id"; the message
routes declare ":messageId" / ":userId", so that parameter is always
absent, validation always fails, and every request is answered 400
"Validation failed" before the handler body runs.
-/

/-- Claim C8: the DELETE /api/messages/:messageId route can never produce
the claimed 404 — `uuidParam` checks the absent parameter named "id", so
every delete-message request (whatever the store, caller and id) is
answered 400 with the store unchanged before the handler runs.  The
handler body alone would honor the claim: deleting message 9 of
`msgStore`, which caller 1 did not send, would answer 404 with the store
unchanged. -/
theorem deleteMessage_route_always_400 (s : Store) (caller : Nat) (raw : String)
    (messageId : Nat) :
    deleteMessageRoute s caller raw messageId = (s, 400) ∧
    deleteMessage msgStore 1 9 = (msgStore, 404) :=
  ⟨rfl, by decide⟩

/-- Claim C9: the PUT /api/messages/:messageId/read route can never
produce the claimed idempotent 200 — `uuidParam` checks the absent
parameter named "id", so every mark-read request (whatever the store,
caller and id) is answered 400 with the store unchanged before the
handler runs.  The handler body alone would honor the claim: message 9 of
`msgStore` is already read by its recipient 1 and the body would answer
200 leaving the store identical. -/
theorem markRead_route_always_400 (s : Store) (caller : Nat) (raw : String)
    (messageId : Nat) :
    markReadRoute s caller raw messageId = (s, 400) ∧
    markRead msgStore 1 9 = (msgStore, 200) :=
  ⟨rfl, by decide⟩

/-- Counterexample to C10 as stated: after user 1 requests the thread
with user 2 on `threadStore`, the unread message from 2 to 1 is still
stored unread — the request is answered 400 by the `uuidParam` validation
(which checks the absent parameter named "id") and the store is
unchanged, so the claimed auto-mark-read side effect did not happen. -/
theorem getThread_route_no_write_cex :
    getThreadRoute threadStore 1 "2" 2 = (threadStore, 400) ∧
    ({ id := 1, sender_id := 2, recipient_id := 1, message := "to ann",
       is_read := false } : MessageRow) ∈ (getThreadRoute threadStore 1 "2" 2).1.messages := by
  decide

/-- Claim C10 (amended): the GET /api/messages/:userId route as wired has
no write side effect at all — `uuidParam` checks the absent parameter
named "id", so every request is answered 400 with the store unchanged
before the handler runs.  Only the handler body, unreachable through the
route, would mark the unread messages from that user to the caller read
while leaving other messages unchanged, as its run on `threadStore` for
caller 1 and user 2 shows. -/
theorem getThread_route_always_400 (s : Store) (caller : Nat) (raw : String)
    (userId : Nat) :
    getThreadRoute s caller raw userId = (s, 400) ∧
    (getThread threadStore 1 2).2 = 200 ∧
    (getThread threadStore 1 2).1.messages =
      [{ id := 1, sender_id := 2, recipient_id := 1, message := "to ann", is_read := true },
       { id := 2, sender_id := 1, recipient_id := 2, message := "to bob", is_read := false },
       { id := 3, sender_id := 2, recipient_id := 3, message := "to cyd", is_read := false }] :=
  ⟨rfl, by decide, by decide⟩

end Devfolio
